import Mathlib

/-!
Verification of the OneDrive transfer tool (`onedrive_transfer.py`).

The program is an interactive front-end over the external `rclone` binary.
We give a shallow embedding: the external world is a pure function from an
argv (a list of strings) to a process result, user console input is a list
of strings consumed one prompt at a time, and each Python function becomes a
Lean function returning its value together with the trace of external
commands it issued (and, where relevant, the lines it printed).  Interactive
`while True` loops consume exactly one console input per iteration, so they
are total by structural recursion on the remaining input list; exhausting
the input list yields `none` (the Python program would block for more input).
-/

namespace OneDriveTransfer

/-- Result of running one external process: exit code and the captured
standard output / standard error texts.  A missing executable
(`FileNotFoundError`) is modelled as a non-zero exit code. -/
structure ProcResult where
  exitCode : Nat
  stdout : String
  stderr : String
deriving DecidableEq, Repr

/-- The external world: what each spawned command returns.  The program is
single-threaded and synchronous, so a pure map from argv to result suffices. -/
def Env : Type := List String → ProcResult

/-- ASCII whitespace, as recognised by Python `str.strip()` (restricted to
ASCII). -/
def isPySpace (c : Char) : Bool :=
  c = ' ' || c = '\t' || c = '\n' || c = '\r' || c = '\x0b' || c = '\x0c'

/-- Python `str.strip()` restricted to ASCII: remove leading and trailing
whitespace. -/
def pyStrip (s : String) : String :=
  ⟨((s.data.dropWhile isPySpace).reverse.dropWhile isPySpace).reverse⟩

/-- Auxiliary walk for `pySplitLines`, carrying the reversed current chunk. -/
def splitLinesAux : List Char → List Char → List String
  | [], acc => [⟨acc.reverse⟩]
  | c :: cs, acc =>
      if c = '\n' then (⟨acc.reverse⟩ : String) :: splitLinesAux cs []
      else splitLinesAux cs (c :: acc)

/-- Python `s.split('\n')`: chunks between newline separators, so `""`
yields `[""]` and a trailing newline yields a final empty chunk. -/
def pySplitLines (s : String) : List String :=
  splitLinesAux s.data []

/-- Python `str.lower()` restricted to ASCII: lower-case each character. -/
def pyLower (s : String) : String :=
  ⟨s.data.map Char.toLower⟩

/-- Python `str.capitalize()` restricted to ASCII: upper-case the first
character, lower-case the rest. -/
def pyCapitalize (s : String) : String :=
  match s.data with
  | [] => ""
  | c :: rest => ⟨Char.toUpper c :: rest.map Char.toLower⟩

/-- Python `str.strip(':')`: remove ALL leading and trailing `:` characters
(both ends, any number of occurrences). -/
def pyStripColons (s : String) : String :=
  ⟨((s.data.dropWhile (fun c => c = ':')).reverse.dropWhile (fun c => c = ':')).reverse⟩

/-- Value of a nonempty list of decimal digit characters. -/
def decDigits? (cs : List Char) : Option Nat :=
  if cs ≠ [] ∧ cs.all Char.isDigit then
    some (cs.foldl (fun a c => a * 10 + (c.toNat - 48)) 0)
  else none

/-- Python `int(s)` on optionally signed decimal text with surrounding
whitespace: `none` models the `ValueError` branch. -/
def pyInt (s : String) : Option Int :=
  match (pyStrip s).data with
  | '+' :: rest => (decDigits? rest).map Int.ofNat
  | '-' :: rest => (decDigits? rest).map (fun n => -(Int.ofNat n))
  | cs => (decDigits? cs).map Int.ofNat

/-- The messages printed by the `except subprocess.CalledProcessError`
handler in `run_rclone_command`.  In streaming mode stderr is not captured,
so Python prints `None` for it. -/
def errMessages (r : ProcResult) (captured : Bool) : List String :=
  ["Error running rclone command: exit status " ++ toString r.exitCode,
   "Error output: " ++ (if captured then r.stderr else "None")]

/-- `run_rclone_command(command, show_output)` (lines 7–21): returns the
Python return value (captured stdout on success in capture mode, `None`
otherwise, and `None` on any failure) paired with the printed error lines. -/
def run_rclone_command (env : Env) (command : List String) (show_output : Bool) :
    Option String × List String :=
  let r := env command
  if show_output then
    if r.exitCode = 0 then (none, [])
    else (none, errMessages r false)
  else
    if r.exitCode = 0 then (some r.stdout, [])
    else (none, errMessages r true)

/-- The argv of the `listremotes` probe (line 25). -/
def listremotes_cmd : List String := ["./rclone", "listremotes"]

/-- The argv of the folder listing call (line 96): note the bare `rclone`
program name, unlike every other invocation in the file. -/
def lsf_cmd (remote_name : String) : List String :=
  ["rclone", "lsf", remote_name ++ ":"]

/-- The argv of `config create` (lines 81 and 89). -/
def config_create_cmd (name : String) : List String :=
  ["./rclone", "config", "create", name, "onedrive"]

/-- The argv of the destination `mkdir` (line 136). -/
def mkdir_cmd (dest_remote dest_folder : String) : List String :=
  ["./rclone", "mkdir", dest_remote ++ ":" ++ dest_folder]

/-- The argv of the version probe (line 172). -/
def version_cmd : List String := ["./rclone", "version"]

/-- `get_existing_remotes()` (lines 23–28): value paired with the issued
command trace.  `if not output` treats both `None` and the empty string as
falsy; the comprehension keeps lines whose `strip()` is non-empty and maps
`strip(':')` over them. -/
def get_existing_remotes (env : Env) : List String × List (List String) :=
  let output := (run_rclone_command env listremotes_cmd false).1
  match output with
  | none => ([], [listremotes_cmd])
  | some out =>
      if out = "" then ([], [listremotes_cmd])
      else (((pySplitLines out).filter (fun remote => pyStrip remote ≠ "")).map pyStripColons,
            [listremotes_cmd])

/-- `list_folders(remote_name)` (lines 93–111): value paired with the
issued command trace.  The comprehension keeps the ORIGINAL lines whose
`strip()` is non-empty (it does not trim them). -/
def list_folders (env : Env) (remote_name : String) : List String × List (List String) :=
  let output := (run_rclone_command env (lsf_cmd remote_name) false).1
  match output with
  | none => ([], [lsf_cmd remote_name])
  | some out =>
      if out = "" then ([], [lsf_cmd remote_name])
      else ((pySplitLines out).filter (fun line => pyStrip line ≠ ""), [lsf_cmd remote_name])

/-- The source-selection `while True` loop of `configure_rclone`
(lines 48–56): consume console inputs until `int(input())` parses and is in
`[1, n]`; return the accepted (1-based) choice and the remaining inputs. -/
def select_index_loop (n : Nat) : List String → Option (Int × List String)
  | [] => none
  | inp :: rest =>
    match pyInt inp with
    | some source_choice =>
        if 1 ≤ source_choice ∧ source_choice ≤ (n : Int) then some (source_choice, rest)
        else select_index_loop n rest
    | none => select_index_loop n rest

/-- The destination-selection `while True` loop of `configure_rclone`
(lines 62–70): additionally rejects a choice equal to the already chosen
source index (`dest_choice != source_choice`, line 65). -/
def select_dest_loop (n : Nat) (source_choice : Int) :
    List String → Option (Int × List String)
  | [] => none
  | inp :: rest =>
    match pyInt inp with
    | some dest_choice =>
        if 1 ≤ dest_choice ∧ dest_choice ≤ (n : Int) ∧ dest_choice ≠ source_choice then
          some (dest_choice, rest)
        else select_dest_loop n source_choice rest
    | none => select_dest_loop n source_choice rest

/-- The create-new-remotes tail of `configure_rclone` (lines 74–91): read a
free-text source name, run `config create`, read a free-text destination
name, run `config create`, and return the two names verbatim (the results of
the two external calls are discarded by the source). -/
def configure_fresh : List String → Option ((String × String) × List String × List (List String))
  | [] => none
  | source_name :: rest =>
    match rest with
    | [] => none
    | dest_name :: rest2 =>
        some ((source_name, dest_name), rest2,
          [config_create_cmd source_name, config_create_cmd dest_name])

/-- `configure_rclone()` (lines 30–91): returns the `(source, dest)` remote
names, the remaining console inputs, and the issued command trace; `none`
when the console input list is exhausted mid-loop. -/
def configure_rclone (env : Env) (inputs : List String) :
    Option ((String × String) × List String × List (List String)) :=
  let er := get_existing_remotes env
  if er.1 = [] then
    (configure_fresh inputs).map (fun x => (x.1, x.2.1, er.2 ++ x.2.2))
  else
    match inputs with
    | [] => none
    | use_existing :: rest =>
      if pyLower use_existing = "yes" then
        match select_index_loop er.1.length rest with
        | none => none
        | some (source_choice, rest2) =>
          match select_dest_loop er.1.length source_choice rest2 with
          | none => none
          | some (dest_choice, rest3) =>
              some ((er.1.getD (source_choice - 1).toNat "",
                     er.1.getD (dest_choice - 1).toNat ""), rest3, er.2)
      else
        (configure_fresh rest).map (fun x => (x.1, x.2.1, er.2 ++ x.2.2))

/-- Result of `select_folder`: either the program terminated via
`sys.exit(1)` (line 120) or a folder name was chosen. -/
inductive SFRes
  | exit1
  | chosen (folder : String)
deriving DecidableEq, Repr

/-- `select_folder(remote_name)` (lines 113–129): one console input is
consumed per loop iteration (the retry answer when the listing is empty,
the index otherwise); `SFRes.exit1` models `sys.exit(1)` on a declined
retry. -/
def select_folder (env : Env) (remote_name : String) :
    List String → Option (SFRes × List String × List (List String))
  | [] => none
  | inp :: rest =>
    let lf := list_folders env remote_name
    if lf.1 = [] then
      if pyLower inp ≠ "yes" then some (SFRes.exit1, rest, lf.2)
      else (select_folder env remote_name rest).map (fun x => (x.1, x.2.1, lf.2 ++ x.2.2))
    else
      match pyInt inp with
      | some choice =>
        if 1 ≤ choice ∧ choice ≤ (lf.1.length : Int) then
          some (SFRes.chosen (lf.1.getD (choice - 1).toNat ""), rest, lf.2)
        else (select_folder env remote_name rest).map (fun x => (x.1, x.2.1, lf.2 ++ x.2.2))
      | none => (select_folder env remote_name rest).map (fun x => (x.1, x.2.1, lf.2 ++ x.2.2))

/-- The transfer argv built by `transfer_files` (lines 139–160): base
subcommand (`copy --ignore-existing` for migrate, the mode name otherwise),
then source spec, destination spec, `--progress`, `-v`, and for sync the two
delete flags. -/
def transfer_command (source_remote source_folder dest_remote dest_folder
    operation_type : String) : List String :=
  let command := ["./rclone"]
  let command :=
    if operation_type = "migrate" then command ++ ["copy", "--ignore-existing"]
    else command ++ [operation_type]
  let command := command ++
    [source_remote ++ ":" ++ source_folder,
     dest_remote ++ ":" ++ dest_folder,
     "--progress", "-v"]
  if operation_type = "sync" then command ++ ["--delete-after", "--delete-excluded"]
  else command

/-- `transfer_files(...)` (lines 131–165): issues `mkdir` then the transfer
command (both results discarded), returning the command trace and the
printed lines.  The final `"... completed!"` print is unconditional. -/
def transfer_files (env : Env) (source_remote source_folder dest_remote dest_folder
    operation_type : String) : List (List String) × List String :=
  let startMsg := "\nStarting " ++ operation_type ++ " from " ++ source_remote ++ ":" ++
    source_folder ++ " to " ++ dest_remote ++ ":" ++ dest_folder
  let mk := mkdir_cmd dest_remote dest_folder
  let p1 := (run_rclone_command env mk false).2
  let command := transfer_command source_remote source_folder dest_remote dest_folder
    operation_type
  let p2 := (run_rclone_command env command true).2
  ([mk, command],
   [startMsg] ++ p1 ++ ["\nTransfer in progress... You'll see the progress below:\n"] ++ p2 ++
     ["\n" ++ pyCapitalize operation_type ++ " completed!"])

/-- The operation-type selection loop of `main` (lines 194–206): loop until
`int(input())` is 1, 2 or 3, mapping to the mode string. -/
def op_select_loop : List String → Option (String × List String)
  | [] => none
  | inp :: rest =>
    match pyInt inp with
    | some op_choice =>
        if op_choice = 1 then some ("copy", rest)
        else if op_choice = 2 then some ("sync", rest)
        else if op_choice = 3 then some ("migrate", rest)
        else op_select_loop rest
    | none => op_select_loop rest

/-- How a run of `main` ends: `prereqFail` and `exit1` are the two
`sys.exit(1)` paths (missing binary, declined folder-listing retry),
`cancelled` is the declined confirmation, `transferred` ran the transfer. -/
inductive Outcome
  | prereqFail
  | exit1
  | cancelled
  | transferred
deriving DecidableEq, Repr

/-- The confirmation tail of `main` (lines 219–224): proceed exactly when
the lower-cased input equals `yes`, issuing the `transfer_files` commands;
otherwise cancel having issued nothing. -/
def confirm_and_dispatch (env : Env) (source_remote source_folder dest_remote dest_folder
    operation_type confirm : String) : Outcome × List (List String) :=
  if pyLower confirm = "yes" then
    (Outcome.transferred,
     (transfer_files env source_remote source_folder dest_remote dest_folder
        operation_type).1)
  else (Outcome.cancelled, [])

/-- `main()` (lines 167–224): version probe, remote configuration, two
folder selections, operation selection, confirmation, dispatch.  Returns the
outcome and the full external command trace, or `none` when console input
is exhausted. -/
def main (env : Env) (inputs : List String) : Option (Outcome × List (List String)) :=
  if (env version_cmd).exitCode ≠ 0 then some (Outcome.prereqFail, [version_cmd])
  else
    match configure_rclone env inputs with
    | none => none
    | some ((source_remote, dest_remote), rest1, tr1) =>
      match select_folder env source_remote rest1 with
      | none => none
      | some (SFRes.exit1, _, tr2) => some (Outcome.exit1, version_cmd :: (tr1 ++ tr2))
      | some (SFRes.chosen source_folder, rest2, tr2) =>
        match select_folder env dest_remote rest2 with
        | none => none
        | some (SFRes.exit1, _, tr3) =>
            some (Outcome.exit1, version_cmd :: (tr1 ++ tr2 ++ tr3))
        | some (SFRes.chosen dest_folder, rest3, tr3) =>
          match op_select_loop rest3 with
          | none => none
          | some (operation_type, rest4) =>
            match rest4 with
            | [] => none
            | confirm :: _ =>
              let cd := confirm_and_dispatch env source_remote source_folder dest_remote
                dest_folder operation_type confirm
              some (cd.1, version_cmd :: (tr1 ++ tr2 ++ tr3 ++ cd.2))

/-- A command is a transfer-related invocation when its subcommand (second
argv slot) is `mkdir`, `copy` or `sync`. -/
def isTransferInvocation (c : List String) : Prop :=
  c.get? 1 = some "mkdir" ∨ c.get? 1 = some "copy" ∨ c.get? 1 = some "sync"

instance (c : List String) : Decidable (isTransferInvocation c) := by
  unfold isTransferInvocation; infer_instance

/-- Reference formulation of the remote-name parsing: walk the split lines
once, keeping each line whose `strip()` is non-empty, with all leading and
trailing `:` characters removed. -/
def remotesOfLines : List String → List String
  | [] => []
  | l :: ls =>
      if pyStrip l = "" then remotesOfLines ls else pyStripColons l :: remotesOfLines ls
/-- Reference formulation of the folder-listing parsing: walk the split
lines once, keeping each line whose `strip()` is non-empty, verbatim. -/
def foldersOfLines : List String → List String
  | [] => []
  | l :: ls =>
      if pyStrip l = "" then foldersOfLines ls else l :: foldersOfLines ls
/-- Modelled from the spec of claim C4 (not from the code): the spec says
the remote names come back "with exactly one trailing delimiter character
stripped" from each "trimmed, non-empty" line.  This strips at most one
trailing `:` from a whitespace-trimmed line. -/
def stripOneTrailingColon (s : String) : String :=
  match s.data.reverse with
  | ':' :: rest => ⟨rest.reverse⟩
  | _ => s
/-- Modelled from the spec of claim C4 (not from the code): trimmed
non-empty lines, one trailing delimiter stripped. -/
def spec_get_existing_remotes (out : String) : List String :=
  (((pySplitLines out).map pyStrip).filter (fun l => l ≠ "")).map stripOneTrailingColon
/-- Modelled from the spec of claim C4 (not from the code): trimmed
non-empty lines. -/
def spec_list_folders (out : String) : List String :=
  ((pySplitLines out).map pyStrip).filter (fun l => l ≠ "")
/-- A concrete external world: `listremotes` prints `x::` and the `lsf`
listing of remote `r` prints ` a ` (with surrounding spaces); everything
else succeeds with empty output. -/
def envA : Env := fun cmd =>
  if cmd = listremotes_cmd then ⟨0, "x::\n", ""⟩
  else if cmd = lsf_cmd "r" then ⟨0, " a \n", ""⟩
  else ⟨0, "", ""⟩

/-- Modelled from the spec of claim C7 (not from the code): the structured
error value `CommandError{exitInfo, stderrText}` the spec says capture-mode
execution returns on a non-zero exit. -/
structure CommandError where
  exitInfo : Nat
  stderrText : String
deriving DecidableEq, Repr

/-- Modelled from the spec of claim C7 (not from the code): capture-mode
execution returning captured stdout on success and a structured error on
non-zero exit. -/
def spec_run_captured (r : ProcResult) : Except CommandError String :=
  if r.exitCode = 0 then Except.ok r.stdout
  else Except.error ⟨r.exitCode, r.stderr⟩

/-- A concrete external world with two remotes `a` and `b`, one folder in
each listing, and every command succeeding. -/
def envOK : Env := fun cmd =>
  if cmd = listremotes_cmd then ⟨0, "a:\nb:\n", ""⟩
  else if cmd = lsf_cmd "a" then ⟨0, "Docs/\n", ""⟩
  else if cmd = lsf_cmd "b" then ⟨0, "Backup/\n", ""⟩
  else ⟨0, "", ""⟩

/-- A concrete external world where every command succeeds with empty
output: no remotes exist and every folder listing is empty. -/
def envNone : Env := fun _ => ⟨0, "", ""⟩

/-- A concrete external world with remotes `a` and `b` where the folder
listing of `b` comes back empty. -/
def envHalf : Env := fun cmd =>
  if cmd = listremotes_cmd then ⟨0, "a:\nb:\n", ""⟩
  else if cmd = lsf_cmd "a" then ⟨0, "Docs/\n", ""⟩
  else ⟨0, "", ""⟩

/-! ### Helper lemmas -/

theorem list_folders_trace (env : Env) (remote : String) :
    (list_folders env remote).2 = [lsf_cmd remote] := by
  unfold list_folders
  cases h : (run_rclone_command env (lsf_cmd remote) false).1 with
  | none => rfl
  | some out => by_cases ho : out = "" <;> simp [ho]

theorem get_existing_remotes_trace (env : Env) :
    (get_existing_remotes env).2 = [listremotes_cmd] := by
  unfold get_existing_remotes
  cases h : (run_rclone_command env listremotes_cmd false).1 with
  | none => rfl
  | some out => by_cases ho : out = "" <;> simp [ho]

theorem select_index_loop_ok (n : Nat) :
    ∀ inputs c rest, select_index_loop n inputs = some (c, rest) →
      1 ≤ c ∧ c ≤ (n : Int) := by
  intro inputs
  induction inputs with
  | nil => intro c rest h; exact absurd h (by simp [select_index_loop])
  | cons inp rest' ih =>
      intro c rest h
      simp only [select_index_loop] at h
      cases hp : pyInt inp with
      | none => simp only [hp] at h; exact ih c rest h
      | some v =>
          simp only [hp] at h
          by_cases hcond : 1 ≤ v ∧ v ≤ (n : Int)
          · rw [if_pos hcond] at h
            simp only [Option.some.injEq, Prod.mk.injEq] at h
            obtain ⟨rfl, rfl⟩ := h
            exact hcond
          · rw [if_neg hcond] at h
            exact ih c rest h

theorem select_dest_loop_ok (n : Nat) (src : Int) :
    ∀ inputs c rest, select_dest_loop n src inputs = some (c, rest) →
      1 ≤ c ∧ c ≤ (n : Int) ∧ c ≠ src := by
  intro inputs
  induction inputs with
  | nil => intro c rest h; exact absurd h (by simp [select_dest_loop])
  | cons inp rest' ih =>
      intro c rest h
      simp only [select_dest_loop] at h
      cases hp : pyInt inp with
      | none => simp only [hp] at h; exact ih c rest h
      | some v =>
          simp only [hp] at h
          by_cases hcond : 1 ≤ v ∧ v ≤ (n : Int) ∧ v ≠ src
          · rw [if_pos hcond] at h
            simp only [Option.some.injEq, Prod.mk.injEq] at h
            obtain ⟨rfl, rfl⟩ := h
            exact hcond
          · rw [if_neg hcond] at h
            exact ih c rest h

theorem select_folder_trace (env : Env) (remote : String) (inputs : List String) :
    ∀ c ∈ ((select_folder env remote inputs).map (fun x => x.2.2)).getD [],
      c = lsf_cmd remote := by
  induction inputs with
  | nil => intro c hc; simp [select_folder] at hc
  | cons inp rest ih =>
      have hrec : ∀ c ∈ (((select_folder env remote rest).map
          (fun x => (x.1, x.2.1, (list_folders env remote).2 ++ x.2.2))).map
            (fun x => x.2.2)).getD [],
          c = lsf_cmd remote := by
        intro c hc
        cases hsel : select_folder env remote rest with
        | none => rw [hsel] at hc; simp at hc
        | some x =>
            rw [hsel] at hc
            simp only [Option.map_some', Option.getD_some] at hc
            rw [list_folders_trace] at hc
            rcases List.mem_append.mp hc with h | h
            · simpa using h
            · exact ih c (by rw [hsel]; simpa using h)
      intro c hc
      simp only [select_folder] at hc
      by_cases he : (list_folders env remote).1 = []
      · rw [if_pos he] at hc
        by_cases hy : pyLower inp ≠ "yes"
        · rw [if_pos hy] at hc
          simp only [Option.map_some', Option.getD_some] at hc
          rw [list_folders_trace] at hc
          simpa using hc
        · rw [if_neg hy] at hc
          exact hrec c hc
      · rw [if_neg he] at hc
        cases hp : pyInt inp with
        | some choice =>
            simp only [hp] at hc
            by_cases hr : 1 ≤ choice ∧ choice ≤ ((list_folders env remote).1.length : Int)
            · rw [if_pos hr] at hc
              simp only [Option.map_some', Option.getD_some] at hc
              rw [list_folders_trace] at hc
              simpa using hc
            · rw [if_neg hr] at hc
              exact hrec c hc
        | none =>
            simp only [hp] at hc
            exact hrec c hc

theorem configure_fresh_shape (inputs : List String) :
    ∀ p rest tr, configure_fresh inputs = some (p, rest, tr) →
      tr = [config_create_cmd p.1, config_create_cmd p.2] := by
  intro p rest tr h
  match inputs with
  | [] => exact absurd h (by simp [configure_fresh])
  | [n1] => exact absurd h (by simp [configure_fresh])
  | n1 :: n2 :: rest2 =>
      simp only [configure_fresh, Option.some.injEq, Prod.mk.injEq] at h
      obtain ⟨⟨rfl, rfl⟩, _, rfl⟩ := h
      rfl

theorem configure_rclone_cons (env : Env) (u : String) (rest : List String) :
    configure_rclone env (u :: rest) =
      if (get_existing_remotes env).1 = [] then
        (configure_fresh (u :: rest)).map
          (fun x => (x.1, x.2.1, (get_existing_remotes env).2 ++ x.2.2))
      else if pyLower u = "yes" then
        match select_index_loop (get_existing_remotes env).1.length rest with
        | none => none
        | some (source_choice, rest2) =>
          match select_dest_loop (get_existing_remotes env).1.length source_choice rest2 with
          | none => none
          | some (dest_choice, rest3) =>
              some (((get_existing_remotes env).1.getD (source_choice - 1).toNat "",
                     (get_existing_remotes env).1.getD (dest_choice - 1).toNat ""),
                    rest3, (get_existing_remotes env).2)
      else
        (configure_fresh rest).map
          (fun x => (x.1, x.2.1, (get_existing_remotes env).2 ++ x.2.2)) := rfl

theorem configure_rclone_trace (env : Env) (inputs : List String) :
    ∀ c ∈ ((configure_rclone env inputs).map (fun x => x.2.2)).getD [],
      c = listremotes_cmd ∨ ∃ n, c = config_create_cmd n := by
  intro c hc
  have hfresh : ∀ ins : List String,
      c ∈ (((configure_fresh ins).map
          (fun x => (x.1, x.2.1, (get_existing_remotes env).2 ++ x.2.2))).map
            (fun x => x.2.2)).getD [] →
        c = listremotes_cmd ∨ ∃ n, c = config_create_cmd n := by
    intro ins hm
    cases hf : configure_fresh ins with
    | none => rw [hf] at hm; simp at hm
    | some x =>
        rw [hf] at hm
        simp only [Option.map_some', Option.getD_some] at hm
        rw [get_existing_remotes_trace] at hm
        rcases List.mem_append.mp hm with h | h
        · exact Or.inl (by simpa using h)
        · have hsh := configure_fresh_shape ins x.1 x.2.1 x.2.2 (by rw [hf])
          rw [hsh] at h
          simp only [List.mem_cons, List.not_mem_nil, or_false] at h
          rcases h with h | h
          · exact Or.inr ⟨x.1.1, h⟩
          · exact Or.inr ⟨x.1.2, h⟩
  cases inputs with
  | nil =>
      by_cases he : (get_existing_remotes env).1 = [] <;>
        simp [configure_rclone, configure_fresh, he] at hc
  | cons u rest =>
      rw [configure_rclone_cons] at hc
      by_cases he : (get_existing_remotes env).1 = []
      · rw [if_pos he] at hc
        exact hfresh (u :: rest) hc
      · rw [if_neg he] at hc
        by_cases hy : pyLower u = "yes"
        · rw [if_pos hy] at hc
          cases hs : select_index_loop (get_existing_remotes env).1.length rest with
          | none => simp only [hs] at hc; simp at hc
          | some sp =>
              obtain ⟨sc, rest2⟩ := sp
              simp only [hs] at hc
              cases hd : select_dest_loop (get_existing_remotes env).1.length sc rest2 with
              | none => simp only [hd] at hc; simp at hc
              | some dp =>
                  obtain ⟨dc, rest3⟩ := dp
                  simp only [hd] at hc
                  simp only [Option.map_some', Option.getD_some] at hc
                  rw [get_existing_remotes_trace] at hc
                  exact Or.inl (by simpa using hc)
        · rw [if_neg hy] at hc
          exact hfresh rest hc

theorem not_transfer_of_benign (c : List String)
    (h : c = version_cmd ∨ c = listremotes_cmd ∨ (∃ n, c = config_create_cmd n) ∨
      ∃ r, c = lsf_cmd r) : ¬ isTransferInvocation c := by
  rcases h with rfl | rfl | ⟨n, rfl⟩ | ⟨r, rfl⟩ <;>
    simp [isTransferInvocation, version_cmd, listremotes_cmd, config_create_cmd, lsf_cmd]

theorem colon_mem_append (a b : String) : ':' ∈ (a ++ ":" ++ b).data := by
  simp [String.data_append]

theorem append_colon_ne (a b t : String) (h : ':' ∉ t.data) : a ++ ":" ++ b ≠ t :=
  fun he => h (he ▸ colon_mem_append a b)

theorem getLast_concat_eq (l : List String) (z : String) :
    (l ++ [z]).getLast? = some z := by simp

theorem transfer_command_sync (s sf d df : String) :
    transfer_command s sf d df "sync" =
      ["./rclone", "sync", s ++ ":" ++ sf, d ++ ":" ++ df, "--progress", "-v",
       "--delete-after", "--delete-excluded"] := rfl

theorem transfer_command_migrate (s sf d df : String) :
    transfer_command s sf d df "migrate" =
      ["./rclone", "copy", "--ignore-existing", s ++ ":" ++ sf, d ++ ":" ++ df,
       "--progress", "-v"] := rfl

theorem transfer_command_copy (s sf d df : String) :
    transfer_command s sf d df "copy" =
      ["./rclone", "copy", s ++ ":" ++ sf, d ++ ":" ++ df, "--progress", "-v"] := rfl

theorem remotesOfLines_eq (ls : List String) :
    (ls.filter (fun r => pyStrip r ≠ "")).map pyStripColons = remotesOfLines ls := by
  induction ls with
  | nil => rfl
  | cons l ls ih =>
      simp only [ne_eq, decide_not] at ih
      by_cases h : pyStrip l = "" <;> simp [remotesOfLines, List.filter_cons, h, ih]

theorem foldersOfLines_eq (ls : List String) :
    ls.filter (fun r => pyStrip r ≠ "") = foldersOfLines ls := by
  induction ls with
  | nil => rfl
  | cons l ls ih =>
      simp only [ne_eq, decide_not] at ih
      by_cases h : pyStrip l = "" <;> simp [foldersOfLines, List.filter_cons, h, ih]

theorem main_benign_of_not_transferred (env : Env) (inputs : List String)
    (o : Outcome) (tr : List (List String))
    (hm : main env inputs = some (o, tr)) (ho : o ≠ Outcome.transferred) :
    ∀ c ∈ tr, ¬ isTransferInvocation c := by
  intro c hc
  unfold main at hm
  by_cases hv : (env version_cmd).exitCode ≠ 0
  · rw [if_pos hv] at hm
    simp only [Option.some.injEq, Prod.mk.injEq] at hm
    obtain ⟨rfl, rfl⟩ := hm
    exact not_transfer_of_benign c (Or.inl (by simpa using hc))
  · rw [if_neg hv] at hm
    cases hcfg : configure_rclone env inputs with
    | none => simp [hcfg] at hm
    | some cfg =>
        obtain ⟨⟨srem, drem⟩, rest1, tr1⟩ := cfg
        simp only [hcfg] at hm
        have htr1 : ∀ c ∈ tr1, ¬ isTransferInvocation c := by
          intro c hc1
          have hx := configure_rclone_trace env inputs c
          rw [hcfg] at hx
          rcases hx (by simpa using hc1) with h | ⟨n, h⟩
          · exact not_transfer_of_benign c (Or.inr (Or.inl h))
          · exact not_transfer_of_benign c (Or.inr (Or.inr (Or.inl ⟨n, h⟩)))
        cases hs1 : select_folder env srem rest1 with
        | none => simp [hs1] at hm
        | some s1 =>
            obtain ⟨res1, rem1, tr2⟩ := s1
            simp only [hs1] at hm
            have htr2 : ∀ c ∈ tr2, ¬ isTransferInvocation c := by
              intro c hc2
              have hx := select_folder_trace env srem rest1 c
              rw [hs1] at hx
              exact not_transfer_of_benign c
                (Or.inr (Or.inr (Or.inr ⟨srem, hx (by simpa using hc2)⟩)))
            cases res1 with
            | exit1 =>
                simp only [Option.some.injEq, Prod.mk.injEq] at hm
                obtain ⟨rfl, rfl⟩ := hm
                rcases (by simpa using hc : c = version_cmd ∨ c ∈ tr1 ++ tr2)
                  with rfl | hmem
                · exact not_transfer_of_benign _ (Or.inl rfl)
                · rcases List.mem_append.mp hmem with h | h
                  · exact htr1 c h
                  · exact htr2 c h
            | chosen sf =>
                cases hs2 : select_folder env drem rem1 with
                | none => simp [hs2] at hm
                | some s2 =>
                    obtain ⟨res2, rem2, tr3⟩ := s2
                    simp only [hs2] at hm
                    have htr3 : ∀ c ∈ tr3, ¬ isTransferInvocation c := by
                      intro c hc3
                      have hx := select_folder_trace env drem rem1 c
                      rw [hs2] at hx
                      exact not_transfer_of_benign c
                        (Or.inr (Or.inr (Or.inr ⟨drem, hx (by simpa using hc3)⟩)))
                    cases res2 with
                    | exit1 =>
                        simp only [Option.some.injEq, Prod.mk.injEq] at hm
                        obtain ⟨rfl, rfl⟩ := hm
                        rcases (by simpa using hc :
                            c = version_cmd ∨ c ∈ tr1 ++ tr2 ++ tr3) with rfl | hmem
                        · exact not_transfer_of_benign _ (Or.inl rfl)
                        · rcases List.mem_append.mp hmem with hmem' | h
                          · rcases List.mem_append.mp hmem' with h | h
                            · exact htr1 c h
                            · exact htr2 c h
                          · exact htr3 c h
                    | chosen df =>
                        cases hop : op_select_loop rem2 with
                        | none => simp [hop] at hm
                        | some opp =>
                            obtain ⟨op, rest4⟩ := opp
                            simp only [hop] at hm
                            cases rest4 with
                            | nil => simp at hm
                            | cons confirm rest5 =>
                                simp only [Option.some.injEq, Prod.mk.injEq] at hm
                                obtain ⟨ho1, rfl⟩ := hm
                                by_cases hyes : pyLower confirm = "yes"
                                · exfalso
                                  apply ho
                                  rw [← ho1]
                                  unfold confirm_and_dispatch
                                  rw [if_pos hyes]
                                · have hcd : confirm_and_dispatch env srem sf drem df
                                      op confirm = (Outcome.cancelled, []) := by
                                    unfold confirm_and_dispatch
                                    rw [if_neg hyes]
                                  rw [hcd] at hc
                                  rcases (by simpa using hc :
                                      c = version_cmd ∨ c ∈ tr1 ++ tr2 ++ tr3)
                                    with rfl | hmem
                                  · exact not_transfer_of_benign _ (Or.inl rfl)
                                  · rcases List.mem_append.mp hmem with hmem' | h
                                    · rcases List.mem_append.mp hmem' with h | h
                                      · exact htr1 c h
                                      · exact htr2 c h
                                    · exact htr3 c h

/-! ### Claims -/

/-- C1: the transfer argv built by `transfer_files` carries exactly the
mode-specific flags: for `sync` both `--delete-after` and `--delete-excluded`
(and no `--ignore-existing`); for `migrate` `--ignore-existing` and no delete
flag; for `copy` none of the three. -/
theorem c1_mode_flags (s sf d df : String) :
    ("--delete-after" ∈ transfer_command s sf d df "sync" ∧
     "--delete-excluded" ∈ transfer_command s sf d df "sync" ∧
     "--ignore-existing" ∉ transfer_command s sf d df "sync") ∧
    ("--ignore-existing" ∈ transfer_command s sf d df "migrate" ∧
     "--delete-after" ∉ transfer_command s sf d df "migrate" ∧
     "--delete-excluded" ∉ transfer_command s sf d df "migrate") ∧
    ("--delete-after" ∉ transfer_command s sf d df "copy" ∧
     "--delete-excluded" ∉ transfer_command s sf d df "copy" ∧
     "--ignore-existing" ∉ transfer_command s sf d df "copy") := by
  refine ⟨⟨?_, ?_, ?_⟩, ⟨?_, ?_, ?_⟩, ?_, ?_, ?_⟩
  · simp [transfer_command_sync]
  · simp [transfer_command_sync]
  · intro hm
    simp [transfer_command_sync] at hm
    rcases hm with h | h <;> exact (append_colon_ne _ _ _ (by decide)) h.symm
  · simp [transfer_command_migrate]
  · intro hm
    simp [transfer_command_migrate] at hm
    rcases hm with h | h <;> exact (append_colon_ne _ _ _ (by decide)) h.symm
  · intro hm
    simp [transfer_command_migrate] at hm
    rcases hm with h | h <;> exact (append_colon_ne _ _ _ (by decide)) h.symm
  · intro hm
    simp [transfer_command_copy] at hm
    rcases hm with h | h <;> exact (append_colon_ne _ _ _ (by decide)) h.symm
  · intro hm
    simp [transfer_command_copy] at hm
    rcases hm with h | h <;> exact (append_colon_ne _ _ _ (by decide)) h.symm
  · intro hm
    simp [transfer_command_copy] at hm
    rcases hm with h | h <;> exact (append_colon_ne _ _ _ (by decide)) h.symm

/-- C5: for every mode, `transfer_files` issues exactly two external
commands, the destination `mkdir` first and the copy/sync transfer second,
so destination-folder creation always precedes the transfer. -/
theorem c5_mkdir_before_transfer (env : Env)
    (s sf d df op : String) :
    (transfer_files env s sf d df op).1 =
      [mkdir_cmd d df, transfer_command s sf d df op] := rfl

/-- C9: `transfer_files` always ends its printed output with the
capitalized `"<operation> completed!"` message, for every behaviour of the
external commands — in streaming mode `run_rclone_command` returns `None`
on success and on failure alike, and `transfer_files` never inspects that
result. -/
theorem c9_completed_always_printed (env : Env) (s sf d df op : String) :
    ((transfer_files env s sf d df op).2).getLast? =
      some ("\n" ++ pyCapitalize op ++ " completed!") ∧
    ∀ command : List String, (run_rclone_command env command true).1 = none := by
  constructor
  · simp only [transfer_files]
    exact getLast_concat_eq _ _
  · intro command
    unfold run_rclone_command
    by_cases h : (env command).exitCode = 0 <;> simp [h]

/-- C4 fails on the code: on the listing output `"x::\n"` the code strips
BOTH trailing colons (Python `strip(':')` removes all leading and trailing
occurrences), returning `["x"]` where the claim's "exactly one trailing
delimiter character stripped" demands `["x:"]`; and on the lsf output
`" a \n"` the code keeps the line verbatim, returning `[" a "]` where the
claim's "trimmed" lines demand `["a"]`. -/
theorem c4_counterexample :
    (get_existing_remotes envA).1 = ["x"] ∧
    spec_get_existing_remotes "x::\n" = ["x:"] ∧
    (["x"] : List String) ≠ ["x:"] ∧
    (list_folders envA "r").1 = [" a "] ∧
    spec_list_folders " a \n" = ["a"] ∧
    ([" a "] : List String) ≠ ["a"] := by
  refine ⟨rfl, rfl, by decide, rfl, rfl, by decide⟩

/-- C4 (amended): for every listing output, `get_existing_remotes` and
`list_folders` return exactly the lines whose whitespace-strip is non-empty,
in their original order; `list_folders` keeps those lines verbatim (they are
NOT whitespace-trimmed), and `get_existing_remotes` strips ALL leading and
trailing delimiter (`:`) characters from each kept line (not exactly one
trailing one). -/
theorem c4_amended_line_parsing (env : Env) (remote : String) :
    ((env listremotes_cmd).exitCode = 0 →
      (get_existing_remotes env).1 =
        remotesOfLines (((env listremotes_cmd).stdout) |> pySplitLines)) ∧
    ((env (lsf_cmd remote)).exitCode = 0 →
      (list_folders env remote).1 =
        foldersOfLines (((env (lsf_cmd remote)).stdout) |> pySplitLines) ∧
      (list_folders env remote).1.Sublist (((env (lsf_cmd remote)).stdout) |> pySplitLines)) := by
  have hrun : ∀ command : List String, (env command).exitCode = 0 →
      run_rclone_command env command false = (some (env command).stdout, []) := by
    intro command h
    unfold run_rclone_command
    simp [h]
  constructor
  · intro h
    unfold get_existing_remotes
    rw [hrun _ h]
    by_cases ho : (env listremotes_cmd).stdout = ""
    · rw [ho]; rfl
    · show (if (env listremotes_cmd).stdout = "" then ([], [listremotes_cmd])
          else (((pySplitLines (env listremotes_cmd).stdout).filter
            (fun remote => pyStrip remote ≠ "")).map pyStripColons, [listremotes_cmd])).1 =
        remotesOfLines (pySplitLines (env listremotes_cmd).stdout)
      rw [if_neg ho]
      exact remotesOfLines_eq _
  · intro h
    have hfold : (list_folders env remote).1 =
        foldersOfLines (((env (lsf_cmd remote)).stdout) |> pySplitLines) := by
      unfold list_folders
      rw [hrun _ h]
      by_cases ho : (env (lsf_cmd remote)).stdout = ""
      · rw [ho]; rfl
      · show (if (env (lsf_cmd remote)).stdout = "" then ([], [lsf_cmd remote])
            else ((pySplitLines (env (lsf_cmd remote)).stdout).filter
              (fun line => pyStrip line ≠ ""), [lsf_cmd remote])).1 =
          foldersOfLines (pySplitLines (env (lsf_cmd remote)).stdout)
        rw [if_neg ho]
        exact foldersOfLines_eq _
    refine ⟨hfold, ?_⟩
    rw [hfold, ← foldersOfLines_eq]
    exact List.filter_sublist _

/-- Witness for the amended C4 at the concrete world `envA`. -/
theorem c4_amended_line_parsing_witness :
    (get_existing_remotes envA).1 = remotesOfLines ("x::\n" |> pySplitLines) ∧
    (list_folders envA "r").1 = foldersOfLines (" a \n" |> pySplitLines) ∧
    (list_folders envA "r").1.Sublist (" a \n" |> pySplitLines) :=
  ⟨(c4_amended_line_parsing envA "r").1 rfl,
   ((c4_amended_line_parsing envA "r").2 rfl).1,
   ((c4_amended_line_parsing envA "r").2 rfl).2⟩

/-- C6 fails on the code: the folder-listing call alone invokes the binary
as bare `rclone` (resolved through the environment's search path), while the
version probe, `listremotes`, `config create`, `mkdir` and the copy/sync
transfer all use the local `./rclone` path. -/
theorem c6_lsf_program_path (env : Env) (remote n s sf d df op : String) :
    (list_folders env remote).2 = [["rclone", "lsf", remote ++ ":"]] ∧
    (lsf_cmd remote).head? = some "rclone" ∧
    ("rclone" : String) ≠ "./rclone" ∧
    version_cmd.head? = some "./rclone" ∧
    listremotes_cmd.head? = some "./rclone" ∧
    (config_create_cmd n).head? = some "./rclone" ∧
    (mkdir_cmd d df).head? = some "./rclone" ∧
    (transfer_command s sf d df op).head? = some "./rclone" := by
  refine ⟨?_, rfl, by decide, rfl, rfl, rfl, rfl, ?_⟩
  · unfold list_folders
    cases h : (run_rclone_command env (lsf_cmd remote) false).1 with
    | none => rfl
    | some out => by_cases ho : out = "" <;> simp [ho, lsf_cmd]
  · by_cases hm : op = "migrate" <;> by_cases hs : op = "sync" <;>
      simp [transfer_command, hm, hs]

/-- C7 fails on the code: in capture mode a non-zero exit does not produce
a structured error value — the exception handler prints the details and
returns the bare `None` sentinel, so two failures with different exit codes
and different stderr texts yield the same return value, which therefore
carries neither the exit information nor the stderr text the claim (and the
spec's `CommandError{exitInfo, stderrText}`) requires. -/
theorem c7_counterexample :
    (run_rclone_command (fun _ => ⟨1, "", "errA"⟩) listremotes_cmd false).1 = none ∧
    (run_rclone_command (fun _ => ⟨2, "", "errB"⟩) listremotes_cmd false).1 = none ∧
    spec_run_captured ⟨1, "", "errA"⟩ = Except.error ⟨1, "errA"⟩ ∧
    spec_run_captured ⟨2, "", "errB"⟩ = Except.error ⟨2, "errB"⟩ ∧
    (⟨1, "errA"⟩ : CommandError) ≠ ⟨2, "errB"⟩ :=
  ⟨rfl, rfl, rfl, rfl, by decide⟩

/-- C7 (amended): in capture mode `run_rclone_command` returns the captured
stdout on a zero exit; on a non-zero exit it prints the exit information
and the captured stderr text and returns the `None` sentinel (no structured
error value), so success and failure are distinguished only by the `None`
return. -/
theorem c7_amended_none_sentinel (env : Env) (command : List String) :
    ((env command).exitCode = 0 →
      run_rclone_command env command false = (some (env command).stdout, [])) ∧
    ((env command).exitCode ≠ 0 →
      (run_rclone_command env command false).1 = none ∧
      ("Error output: " ++ (env command).stderr) ∈
        (run_rclone_command env command false).2) := by
  constructor
  · intro h
    unfold run_rclone_command
    simp [h]
  · intro h
    unfold run_rclone_command
    simp [h, errMessages]

/-- Witness for the amended C7: one succeeding and one failing concrete
command. -/
theorem c7_amended_none_sentinel_witness :
    run_rclone_command (fun _ => (⟨0, "out", ""⟩ : ProcResult)) listremotes_cmd false =
      (some "out", []) ∧
    ((run_rclone_command (fun _ => (⟨1, "", "boom"⟩ : ProcResult)) listremotes_cmd false).1 =
        none ∧
      ("Error output: " ++ "boom") ∈
        (run_rclone_command (fun _ => (⟨1, "", "boom"⟩ : ProcResult)) listremotes_cmd false).2) :=
  ⟨(c7_amended_none_sentinel (fun _ => ⟨0, "out", ""⟩) listremotes_cmd).1 rfl,
   (c7_amended_none_sentinel (fun _ => ⟨1, "", "boom"⟩) listremotes_cmd).2 (by decide)⟩

/-- C2 fails on the code: the confirmation check lower-cases the input
before comparing with `yes`, so the input `YES` — which is not the literal
affirmative token — still proceeds to the transfer, issuing the `mkdir` and
`sync` commands. -/
theorem c2_counterexample :
    ("YES" : String) ≠ "yes" ∧
    main envOK ["yes", "1", "2", "1", "1", "2", "YES"] =
      some (Outcome.transferred,
        [version_cmd, listremotes_cmd, lsf_cmd "a", lsf_cmd "b",
         mkdir_cmd "b" "Backup/", transfer_command "a" "Docs/" "b" "Backup/" "sync"]) :=
  ⟨by decide, by decide⟩

/-- C2 (amended): any confirmation input whose lower-cased form is not
`yes` cancels the run with zero transfer invocations (no `mkdir`, `copy` or
`sync` command in the whole trace), while any input lower-casing to `yes`
(so `yes`, `YES`, `Yes`, …, not only the literal token) proceeds to the
transfer. -/
theorem c2_amended_lowercase_confirmation (env : Env)
    (s sf d df op confirm : String) :
    (pyLower confirm ≠ "yes" →
      confirm_and_dispatch env s sf d df op confirm = (Outcome.cancelled, [])) ∧
    (pyLower confirm = "yes" →
      (confirm_and_dispatch env s sf d df op confirm).1 = Outcome.transferred) ∧
    (∀ inputs o tr, main env inputs = some (o, tr) → o = Outcome.cancelled →
      ∀ c ∈ tr, ¬ isTransferInvocation c) := by
  refine ⟨?_, ?_, ?_⟩
  · intro h
    unfold confirm_and_dispatch
    rw [if_neg h]
  · intro h
    unfold confirm_and_dispatch
    rw [if_pos h]
  · intro inputs o tr hm ho
    exact main_benign_of_not_transferred env inputs o tr hm (by simp [ho])

/-- Witness for the amended C2: a declined and an accepted confirmation,
and a full cancelled run whose trace holds no transfer command. -/
theorem c2_amended_lowercase_confirmation_witness :
    confirm_and_dispatch envOK "a" "Docs/" "b" "Backup/" "sync" "no" =
      (Outcome.cancelled, []) ∧
    (confirm_and_dispatch envOK "a" "Docs/" "b" "Backup/" "sync" "YES").1 =
      Outcome.transferred ∧
    (∀ c ∈ [version_cmd, listremotes_cmd, lsf_cmd "a", lsf_cmd "b"],
      ¬ isTransferInvocation c) :=
  ⟨(c2_amended_lowercase_confirmation envOK "a" "Docs/" "b" "Backup/" "sync" "no").1
      (by decide),
   (c2_amended_lowercase_confirmation envOK "a" "Docs/" "b" "Backup/" "sync" "YES").2.1
      (by decide),
   fun c hc =>
     (c2_amended_lowercase_confirmation envOK "a" "Docs/" "b" "Backup/" "sync" "x").2.2
       ["yes", "1", "2", "1", "1", "2", "no"] Outcome.cancelled
       [version_cmd, listremotes_cmd, lsf_cmd "a", lsf_cmd "b"] (by decide) rfl c hc⟩

/-- C3: in the reuse-existing-remotes path, whatever the index inputs, when
`configure_rclone` returns, the destination index differs from the source
index (both in range, and the returned names are the corresponding list
entries); the same-name check is NOT enforced in the freshly-created path,
where the identical name `x` is accepted for both remotes. -/
theorem c3_reuse_distinct_indices (env : Env) (u : String) (rest rem : List String)
    (p : String × String) (tr : List (List String))
    (hne : (get_existing_remotes env).1 ≠ [])
    (hyes : pyLower u = "yes")
    (hcfg : configure_rclone env (u :: rest) = some (p, rem, tr)) :
    (∃ sc dc : Int,
      1 ≤ sc ∧ sc ≤ ((get_existing_remotes env).1.length : Int) ∧
      1 ≤ dc ∧ dc ≤ ((get_existing_remotes env).1.length : Int) ∧
      dc ≠ sc ∧
      p.1 = (get_existing_remotes env).1.getD (sc - 1).toNat "" ∧
      p.2 = (get_existing_remotes env).1.getD (dc - 1).toNat "") ∧
    configure_rclone envNone ["x", "x"] =
      some (("x", "x"), [],
        [listremotes_cmd, config_create_cmd "x", config_create_cmd "x"]) := by
  constructor
  · rw [configure_rclone_cons, if_neg hne, if_pos hyes] at hcfg
    cases hs : select_index_loop (get_existing_remotes env).1.length rest with
    | none => simp [hs] at hcfg
    | some sp =>
        obtain ⟨sc, rest2⟩ := sp
        simp only [hs] at hcfg
        cases hd : select_dest_loop (get_existing_remotes env).1.length sc rest2 with
        | none => simp [hd] at hcfg
        | some dp =>
            obtain ⟨dc, rest3⟩ := dp
            simp only [hd] at hcfg
            simp only [Option.some.injEq, Prod.mk.injEq] at hcfg
            obtain ⟨hp, -, -⟩ := hcfg
            obtain ⟨hs1, hs2⟩ := select_index_loop_ok _ rest sc rest2 hs
            obtain ⟨hd1, hd2, hd3⟩ := select_dest_loop_ok _ sc rest2 dc rest3 hd
            refine ⟨sc, dc, hs1, hs2, hd1, hd2, hd3, ?_, ?_⟩ <;> rw [← hp]
  · decide

/-- Witness for C3: the reuse path at the concrete world `envOK` with
source index 1 and destination index 2. -/
theorem c3_reuse_distinct_indices_witness :
    (∃ sc dc : Int,
      1 ≤ sc ∧ sc ≤ ((get_existing_remotes envOK).1.length : Int) ∧
      1 ≤ dc ∧ dc ≤ ((get_existing_remotes envOK).1.length : Int) ∧
      dc ≠ sc ∧
      (("a", "b") : String × String).1 =
        (get_existing_remotes envOK).1.getD (sc - 1).toNat "" ∧
      (("a", "b") : String × String).2 =
        (get_existing_remotes envOK).1.getD (dc - 1).toNat "") ∧
    configure_rclone envNone ["x", "x"] =
      some (("x", "x"), [],
        [listremotes_cmd, config_create_cmd "x", config_create_cmd "x"]) :=
  c3_reuse_distinct_indices envOK "yes" ["1", "2"] [] ("a", "b") [listremotes_cmd]
    (by decide) (by decide) (by decide)

/-- C10: in the create-new-remotes path (no existing remotes, or reuse
declined), `configure_rclone` returns exactly the two typed names,
unchanged and unvalidated — the theorem holds for every pair of strings,
including empty or identical ones — and for every behaviour of the two
`config create` invocations, whose results are never inspected. -/
theorem c10_fresh_names_verbatim (env : Env) (n1 n2 : String) (rest : List String) :
    ((get_existing_remotes env).1 = [] →
      configure_rclone env (n1 :: n2 :: rest) =
        some ((n1, n2), rest,
          [listremotes_cmd, config_create_cmd n1, config_create_cmd n2])) ∧
    (∀ u, (get_existing_remotes env).1 ≠ [] → pyLower u ≠ "yes" →
      configure_rclone env (u :: n1 :: n2 :: rest) =
        some ((n1, n2), rest,
          [listremotes_cmd, config_create_cmd n1, config_create_cmd n2])) := by
  constructor
  · intro he
    rw [configure_rclone_cons, if_pos he]
    simp [configure_fresh, get_existing_remotes_trace]
  · intro u hne hy
    rw [configure_rclone_cons, if_neg hne, if_neg hy]
    simp [configure_fresh, get_existing_remotes_trace]

/-- Witness for C10: identical names `x`/`x` accepted with no remotes, and
empty names accepted after declining reuse. -/
theorem c10_fresh_names_verbatim_witness :
    configure_rclone envNone ["x", "x"] =
      some (("x", "x"), [],
        [listremotes_cmd, config_create_cmd "x", config_create_cmd "x"]) ∧
    configure_rclone envOK ["no", "", ""] =
      some (("", ""), [],
        [listremotes_cmd, config_create_cmd "", config_create_cmd ""]) :=
  ⟨(c10_fresh_names_verbatim envNone "x" "x" []).1 (by decide),
   (c10_fresh_names_verbatim envOK "" "" []).2 "no" (by decide) (by decide)⟩

/-- C8: in `select_folder`, an empty listing with a declined retry ends the
whole program via `sys.exit(1)` (`SFRes.exit1`, surfaced by `main` as
`Outcome.exit1`, whose trace then holds no transfer command); an accepted
retry repeats the listing loop; with a non-empty listing a valid 1-based
index returns that folder, while an out-of-range or non-numeric input
re-prompts. -/
theorem c8_folder_selection_retry (env : Env) (remote inp : String) (rest : List String) :
    ((list_folders env remote).1 = [] → pyLower inp ≠ "yes" →
      select_folder env remote (inp :: rest) =
        some (SFRes.exit1, rest, (list_folders env remote).2)) ∧
    ((list_folders env remote).1 = [] → pyLower inp = "yes" →
      select_folder env remote (inp :: rest) =
        (select_folder env remote rest).map
          (fun x => (x.1, x.2.1, (list_folders env remote).2 ++ x.2.2))) ∧
    (∀ choice : Int, (list_folders env remote).1 ≠ [] → pyInt inp = some choice →
      1 ≤ choice → choice ≤ ((list_folders env remote).1.length : Int) →
      select_folder env remote (inp :: rest) =
        some (SFRes.chosen ((list_folders env remote).1.getD (choice - 1).toNat ""),
          rest, (list_folders env remote).2)) ∧
    (∀ choice : Int, (list_folders env remote).1 ≠ [] → pyInt inp = some choice →
      ¬(1 ≤ choice ∧ choice ≤ ((list_folders env remote).1.length : Int)) →
      select_folder env remote (inp :: rest) =
        (select_folder env remote rest).map
          (fun x => (x.1, x.2.1, (list_folders env remote).2 ++ x.2.2))) ∧
    ((list_folders env remote).1 ≠ [] → pyInt inp = none →
      select_folder env remote (inp :: rest) =
        (select_folder env remote rest).map
          (fun x => (x.1, x.2.1, (list_folders env remote).2 ++ x.2.2))) ∧
    (∀ inputs o tr, main env inputs = some (o, tr) → o = Outcome.exit1 →
      ∀ c ∈ tr, ¬ isTransferInvocation c) := by
  refine ⟨?_, ?_, ?_, ?_, ?_, ?_⟩
  · intro hl hy
    simp only [select_folder]
    rw [if_pos hl, if_pos hy]
  · intro hl hy
    simp only [select_folder]
    rw [if_pos hl, if_neg (not_not_intro hy)]
  · intro choice hl hp h1 h2
    simp only [select_folder]
    rw [if_neg hl]
    simp only [hp]
    rw [if_pos ⟨h1, h2⟩]
  · intro choice hl hp hr
    simp only [select_folder]
    rw [if_neg hl]
    simp only [hp]
    rw [if_neg hr]
  · intro hl hp
    simp only [select_folder]
    rw [if_neg hl]
    simp only [hp]
  · intro inputs o tr hm ho
    exact main_benign_of_not_transferred env inputs o tr hm (by simp [ho])

/-- Witness for C8: each branch at a concrete world — declined retry,
accepted retry, valid index, out-of-range index, non-numeric index, and a
full run of `main` ending in exit status 1 with no transfer command. -/
theorem c8_folder_selection_retry_witness :
    select_folder envNone "a" ["no"] =
      some (SFRes.exit1, [], (list_folders envNone "a").2) ∧
    select_folder envNone "a" ["yes", "no"] =
      (select_folder envNone "a" ["no"]).map
        (fun x => (x.1, x.2.1, (list_folders envNone "a").2 ++ x.2.2)) ∧
    select_folder envOK "a" ["1"] =
      some (SFRes.chosen ((list_folders envOK "a").1.getD (((1 : Int)) - 1).toNat ""),
        [], (list_folders envOK "a").2) ∧
    select_folder envOK "a" ["9", "1"] =
      (select_folder envOK "a" ["1"]).map
        (fun x => (x.1, x.2.1, (list_folders envOK "a").2 ++ x.2.2)) ∧
    select_folder envOK "a" ["abc", "1"] =
      (select_folder envOK "a" ["1"]).map
        (fun x => (x.1, x.2.1, (list_folders envOK "a").2 ++ x.2.2)) ∧
    (∀ c ∈ [version_cmd, listremotes_cmd, lsf_cmd "a", lsf_cmd "b"],
      ¬ isTransferInvocation c) :=
  ⟨(c8_folder_selection_retry envNone "a" "no" []).1 (by decide) (by decide),
   (c8_folder_selection_retry envNone "a" "yes" ["no"]).2.1 (by decide) (by decide),
   (c8_folder_selection_retry envOK "a" "1" []).2.2.1 1 (by decide) (by decide)
     (by decide) (by decide),
   (c8_folder_selection_retry envOK "a" "9" ["1"]).2.2.2.1 9 (by decide) (by decide)
     (by decide),
   (c8_folder_selection_retry envOK "a" "abc" ["1"]).2.2.2.2.1 (by decide) (by decide),
   fun c hc =>
     (c8_folder_selection_retry envHalf "a" "x" []).2.2.2.2.2
       ["yes", "1", "2", "1", "no"] Outcome.exit1
       [version_cmd, listremotes_cmd, lsf_cmd "a", lsf_cmd "b"] (by decide) rfl c hc⟩

end OneDriveTransfer
